import Mathlib

/-!
Shallow embedding of src/keep/streamlit-keep.py (class StreamlitAppWaker).

The script drives a Selenium browser session to wake a dormant Streamlit
app: navigate to the app URL, look for the wake-up button (first in the
main document, then inside the first embedded iframe), click it, wait,
and verify by checking that the button has disappeared from both contexts.

Every effectful browser primitive the Python code invokes is modelled by
an oracle field of the `World` structure: the outcome the browser would
give at the unique program point where that primitive is used.  Fallible
calls return `Except Exc` values; the three exception classes the code
distinguishes in its handlers (TimeoutException, NoSuchElementException,
everything else) are the three constructors of `Exc`.  Every observable
browser action is recorded in a trace of `Event`s, and the driver's
current frame context is derived from the trace by folding the
`switchedTo` events (`ctxAfter`).  Logging and `driver.quit()` (the
`finally` block of `run`) are modelled as non-failing; failures of
`button.is_displayed()` / `button.is_enabled()` are folded into the
surrounding wait/click oracles, since the enclosing `try` handles all of
them identically.
-/

deriving instance DecidableEq for Except

/-- Frame context of the browser driver: the main document
(`switch_to.default_content()`) or the first embedded iframe
(`switch_to.frame(iframe)`). -/
inductive Ctx
  | mainDoc
  | frame
deriving DecidableEq, Repr

/-- Exception classes the Python code distinguishes in its `except`
clauses: `TimeoutException`, `NoSuchElementException`, and any other
exception (carrying its `str(e)` message). -/
inductive Exc
  | timeout
  | noSuch
  | other (msg : String)
deriving DecidableEq, Repr

/-- Message text `str(e)` of an exception, as interpolated by the code
into its own error strings. -/
def Exc.msg : Exc → String
  | .timeout => "TimeoutException"
  | .noSuch => "NoSuchElementException"
  | .other m => m

/-- A web element as far as the code observes it: the results of
`is_displayed()` and `is_enabled()`. -/
structure Elem where
  displayed : Bool
  enabled : Bool
deriving DecidableEq, Repr

/-- Observable actions of one process execution, in order. -/
inductive Event
  | sessionOpened
  | scriptExecuted
  | navigated
  | slept (seconds : Nat)
  | switchedTo (c : Ctx)
  | clickSearch (c : Ctx)
  | clicked (c : Ctx)
  | absenceCheck (c : Ctx)
  | sessionClosed
deriving DecidableEq, Repr

/-- Frame context after executing a trace of events from context `c`:
the last `switchedTo` event wins. -/
def ctxAfter (c : Ctx) (t : List Event) : Ctx :=
  t.foldl (fun cur e => match e with | Event.switchedTo c2 => c2 | _ => cur) c

/-- Message of the exception raised by `wakeup_app` when
`STREAMLIT_APP_URL` is empty (line 133). -/
def cfgMsg : String := "⚠️ 环境变量 STREAMLIT_APP_URL 未配置。"

/-- Success message returned when no click was needed (line 169). -/
def alreadyAwakeMsg : String := "✅ 应用已处于唤醒状态，无需操作。"

/-- Message of the exception raised when the button is neither clickable
nor gone (line 171). -/
def notFoundMsg : String := "⚠️ 找不到或无法点击唤醒按钮。请检查应用URL和按钮选择器是否正确。"

/-- Success message returned when the post-click verification finds the
button gone (line 179). -/
def wakeSuccessMsg : String := "✅ 应用唤醒成功！"

/-- Message of the exception raised when the button is still present
after the post-click wait (line 181). -/
def persistedMsg : String := "❌ 唤醒操作已执行，但唤醒按钮在等待后仍然存在。应用可能未能成功启动。"

/-- Prefix `run` puts in front of `str(e)` when it converts a caught
exception into its failure message (line 193). -/
def runFailPrefix : String := "❌ 脚本执行失败: "

/-- Oracle for one process execution: the outcome of every browser
primitive at the unique program point where the code invokes it.
`Except.ok` means the call returned normally; for the two
`presence_of_element_located` waits of `is_app_woken_up`, `ok` means the
button was found (still present). -/
structure World where
  /-- Value of the STREAMLIT_APP_URL environment variable (class
  constant `APP_URL`, line 21; empty string when unset). -/
  appUrl : String
  /-- Whether `webdriver.Chrome(options=...)` succeeds (line 50). -/
  chromeOk : Bool
  /-- Whether the anti-detection `execute_script` in the constructor
  succeeds (line 51). -/
  scriptOk : Bool
  /-- Outcome of `driver.get(APP_URL)` (line 136). -/
  navigate : Except Exc Unit
  /-- Outcome of the 5s clickable-wait in the main document
  (line 69 via line 144). -/
  mainClickWait : Except Exc Elem
  /-- Outcome of `button.click()` in the main document (line 73). -/
  mainClickAct : Except Exc Unit
  /-- Outcome of `find_element(By.TAG_NAME, "iframe")` in the click
  phase (line 151). -/
  findIframeClick : Except Exc Unit
  /-- Outcome of `switch_to.frame(iframe)` in the click phase
  (line 153). -/
  switchFrameClick : Except Exc Unit
  /-- Outcome of the 5s clickable-wait inside the iframe
  (line 69 via line 155). -/
  frameClickWait : Except Exc Elem
  /-- Outcome of `button.click()` inside the iframe (line 73). -/
  frameClickAct : Except Exc Unit
  /-- Outcome of the 5s presence-wait in the main document during the
  absence check (lines 98-100): `ok` = button still present. -/
  absMainWait : Except Exc Unit
  /-- Outcome of `find_element(By.TAG_NAME, "iframe")` in the absence
  check (line 108). -/
  absFindIframe : Except Exc Unit
  /-- Outcome of `switch_to.frame(iframe)` in the absence check
  (line 109). -/
  absSwitchFrame : Except Exc Unit
  /-- Outcome of the 5s presence-wait inside the iframe during the
  absence check (lines 112-114): `ok` = button still present. -/
  absFrameWait : Except Exc Unit

/-- Embedding of `find_and_click_button` (lines 63-88).  The whole body
is one `try` whose three `except` clauses all return `False`, so every
error outcome of the wait or of the click converts to `false`.  A
`clicked` event is recorded only when `button.click()` returned
normally.  The function never changes the frame context. -/
def find_and_click_button (waitRes : Except Exc Elem) (clickRes : Except Exc Unit)
    (c : Ctx) : Bool × List Event :=
  match waitRes with
  | .error _ => (false, [Event.clickSearch c])
  | .ok b =>
    if b.displayed && b.enabled then
      match clickRes with
      | .ok _ => (true, [Event.clickSearch c, Event.clicked c])
      | .error _ => (false, [Event.clickSearch c])
    else
      (false, [Event.clickSearch c])

/-- Embedding of the click phase of `wakeup_app` (lines 141-164): try
the main document first; only if that did not click, locate the iframe,
switch into it inside a `try`/`finally` that always switches back to the
main document, and search there.  `find_element` failures and
switch failures are caught by the outer `except` clauses (lines
161-164), which leave the click as not-succeeded. -/
def clickPhase (w : World) : Bool × List Event :=
  let m := find_and_click_button w.mainClickWait w.mainClickAct Ctx.mainDoc
  if m.1 then (true, m.2)
  else
    match w.findIframeClick with
    | .error _ => (false, m.2)
    | .ok _ =>
      match w.switchFrameClick with
      | .error _ => (false, m.2 ++ [Event.switchedTo Ctx.mainDoc])
      | .ok _ =>
        let f := find_and_click_button w.frameClickWait w.frameClickAct Ctx.frame
        (f.1, m.2 ++ [Event.switchedTo Ctx.frame] ++ f.2 ++ [Event.switchedTo Ctx.mainDoc])

/-- Embedding of the iframe half of `is_app_woken_up` (lines 106-127):
`NoSuchElementException` or `TimeoutException` from the find / switch /
presence-wait mean the button is gone there (return `True`); any other
exception returns `False`; finding the button returns `False`.  Every
branch ends with `switch_to.default_content()`. -/
def absFrameCheck (w : World) : Bool × List Event :=
  match w.absFindIframe with
  | .error .noSuch => (true, [Event.switchedTo Ctx.mainDoc])
  | .error .timeout => (true, [Event.switchedTo Ctx.mainDoc])
  | .error (.other _) => (false, [Event.switchedTo Ctx.mainDoc])
  | .ok _ =>
    match w.absSwitchFrame with
    | .error .noSuch => (true, [Event.switchedTo Ctx.mainDoc])
    | .error .timeout => (true, [Event.switchedTo Ctx.mainDoc])
    | .error (.other _) => (false, [Event.switchedTo Ctx.mainDoc])
    | .ok _ =>
      match w.absFrameWait with
      | .ok _ =>
        (false, [Event.switchedTo Ctx.frame, Event.absenceCheck Ctx.frame,
                 Event.switchedTo Ctx.mainDoc])
      | .error .noSuch =>
        (true, [Event.switchedTo Ctx.frame, Event.absenceCheck Ctx.frame,
                Event.switchedTo Ctx.mainDoc])
      | .error .timeout =>
        (true, [Event.switchedTo Ctx.frame, Event.absenceCheck Ctx.frame,
                Event.switchedTo Ctx.mainDoc])
      | .error (.other _) =>
        (false, [Event.switchedTo Ctx.frame, Event.absenceCheck Ctx.frame,
                 Event.switchedTo Ctx.mainDoc])

/-- Embedding of `is_app_woken_up` (lines 90-127).  It first switches to
the main document and runs a 5s presence-wait there: finding the button
returns `false`; only `TimeoutException` is caught (button gone, go on
to the iframe half); ANY OTHER exception from that first wait is not
handled and propagates to the caller (`Except.error`). -/
def is_app_woken_up (w : World) : Except Exc Bool × List Event :=
  let t0 := [Event.switchedTo Ctx.mainDoc, Event.absenceCheck Ctx.mainDoc]
  match w.absMainWait with
  | .ok _ => (Except.ok false, t0)
  | .error .timeout =>
    let f := absFrameCheck w
    (Except.ok f.1, t0 ++ f.2)
  | .error e => (Except.error e, t0)

/-- Embedding of `wakeup_app` (lines 130-181): raise the configuration
error if `APP_URL` is empty; navigate (a failure propagates); sleep 10s;
run the click phase; if no click succeeded, return the already-awake
success or raise the not-found error according to `is_app_woken_up`;
otherwise sleep 20s and return the wake-success message or raise the
button-persisted error according to the same check. -/
def wakeup_app (w : World) : Except Exc (Bool × String) × List Event :=
  if w.appUrl = "" then (Except.error (Exc.other cfgMsg), [])
  else
    match w.navigate with
    | .error e => (Except.error e, [])
    | .ok _ =>
      let cp := clickPhase w
      let aw := is_app_woken_up w
      if cp.1 then
        (match aw.1 with
         | .ok true => Except.ok (true, wakeSuccessMsg)
         | .ok false => Except.error (Exc.other persistedMsg)
         | .error e => Except.error e,
         [Event.navigated, Event.slept 10] ++ cp.2 ++ [Event.slept 20] ++ aw.2)
      else
        (match aw.1 with
         | .ok true => Except.ok (true, alreadyAwakeMsg)
         | .ok false => Except.error (Exc.other notFoundMsg)
         | .error e => Except.error e,
         [Event.navigated, Event.slept 10] ++ cp.2 ++ aw.2)

/-- Embedding of `run` (lines 183-200): every exception from
`wakeup_app` is caught and converted into `(False, prefix ++ str(e))`;
the `finally` block closes the driver on every path (`driver.quit()` is
modelled as non-failing). -/
def run (w : World) : (Bool × String) × List Event :=
  let r := wakeup_app w
  (match r.1 with
   | .ok sm => sm
   | .error e => (false, runFailPrefix ++ e.msg),
   r.2 ++ [Event.sessionClosed])

/-- Embedding of `main` (lines 202-222) together with the constructor
(lines 27-55): building `StreamlitAppWaker` opens the Chrome session and
then runs the anti-detection script; if either step fails the
constructor raises, `main` catches and exits 1 — in the script-failure
case the session was already opened and is never closed.  When
construction succeeds, `run` is called and `main` exits 0 whether the
wake flow succeeded or failed. -/
def mainFn (w : World) : Nat × List Event :=
  if w.chromeOk then
    if w.scriptOk then
      (0, Event.sessionOpened :: Event.scriptExecuted :: (run w).2)
    else (1, [Event.sessionOpened])
  else (1, [])

/-- Concrete execution: URL configured, driver fully initialized, no
wake button anywhere (main-document waits time out, no iframe element on
the page). -/
def baseWorld : World where
  appUrl := "https://example.streamlit.app"
  chromeOk := true
  scriptOk := true
  navigate := Except.ok ()
  mainClickWait := Except.error Exc.timeout
  mainClickAct := Except.ok ()
  findIframeClick := Except.error Exc.noSuch
  switchFrameClick := Except.ok ()
  frameClickWait := Except.error Exc.timeout
  frameClickAct := Except.ok ()
  absMainWait := Except.error Exc.timeout
  absFindIframe := Except.error Exc.noSuch
  absSwitchFrame := Except.ok ()
  absFrameWait := Except.error Exc.timeout

/-- Concrete execution with an empty STREAMLIT_APP_URL and a fully
successful driver initialization. -/
def wCfg : World := { baseWorld with appUrl := "" }

/-- Concrete execution where `webdriver.Chrome` succeeds but the
constructor's `execute_script` call fails. -/
def wScriptFail : World := { baseWorld with scriptOk := false }

/-- Concrete execution where the main-document presence-wait of the
absence check fails with a generic (non-timeout) exception. -/
def wErrAbs : World := { baseWorld with absMainWait := Except.error (Exc.other ("network error")) }

/-- Concrete execution where the wake button is present, displayed and
enabled in the main document and the click succeeds; afterwards the
button is gone everywhere. -/
def wMainClick : World := { baseWorld with mainClickWait := Except.ok ⟨true, true⟩ }

theorem ctxAfter_append (c : Ctx) (t1 t2 : List Event) :
    ctxAfter c (t1 ++ t2) = ctxAfter (ctxAfter c t1) t2 := by
  simp [ctxAfter, List.foldl_append]

theorem fcb_shape (wr : Except Exc Elem) (cr : Except Exc Unit) (c : Ctx) :
    (find_and_click_button wr cr c).2 = [Event.clickSearch c] ∨
    (find_and_click_button wr cr c).2 = [Event.clickSearch c, Event.clicked c] := by
  unfold find_and_click_button
  rcases wr with e | b
  · exact Or.inl rfl
  · by_cases h : (b.displayed && b.enabled) = true
    · rcases cr with e | u <;> simp [h]
    · simp [h]

theorem fcb_false_trace (wr : Except Exc Elem) (cr : Except Exc Unit) (c : Ctx)
    (h : (find_and_click_button wr cr c).1 = false) :
    (find_and_click_button wr cr c).2 = [Event.clickSearch c] := by
  unfold find_and_click_button at h ⊢
  rcases wr with e | b
  · rfl
  · by_cases hb : (b.displayed && b.enabled) = true
    · rcases cr with e | u
      · simp [hb]
      · simp [hb] at h
    · simp [hb]

theorem absFrameCheck_trace_cases (w : World) :
    (absFrameCheck w).2 = [Event.switchedTo Ctx.mainDoc] ∨
    (absFrameCheck w).2 = [Event.switchedTo Ctx.frame, Event.absenceCheck Ctx.frame,
      Event.switchedTo Ctx.mainDoc] := by
  unfold absFrameCheck
  rcases w.absFindIframe with e | u
  · cases e <;> simp
  · rcases w.absSwitchFrame with e2 | u2
    · cases e2 <;> simp
    · rcases w.absFrameWait with e3 | u3
      · cases e3 <;> simp
      · simp

theorem iawu_trace_cases (w : World) :
    (is_app_woken_up w).2 = [Event.switchedTo Ctx.mainDoc, Event.absenceCheck Ctx.mainDoc] ∨
    (is_app_woken_up w).2 =
      [Event.switchedTo Ctx.mainDoc, Event.absenceCheck Ctx.mainDoc] ++ (absFrameCheck w).2 := by
  unfold is_app_woken_up
  rcases w.absMainWait with e | u
  · cases e <;> simp
  · simp

theorem clickPhase_trace_cases (w : World) :
    (clickPhase w).2 = (find_and_click_button w.mainClickWait w.mainClickAct Ctx.mainDoc).2 ∨
    (clickPhase w).2 = (find_and_click_button w.mainClickWait w.mainClickAct Ctx.mainDoc).2 ++
      [Event.switchedTo Ctx.mainDoc] ∨
    (clickPhase w).2 = (find_and_click_button w.mainClickWait w.mainClickAct Ctx.mainDoc).2 ++
      [Event.switchedTo Ctx.frame] ++
      (find_and_click_button w.frameClickWait w.frameClickAct Ctx.frame).2 ++
      [Event.switchedTo Ctx.mainDoc] := by
  unfold clickPhase
  by_cases hm : (find_and_click_button w.mainClickWait w.mainClickAct Ctx.mainDoc).1 = true
  · simp [hm]
  · rcases w.findIframeClick with e | u
    · simp [hm]
    · rcases w.switchFrameClick with e2 | u2 <;> simp [hm]

theorem iawu_ctx (w : World) (c : Ctx) :
    ctxAfter c (is_app_woken_up w).2 = Ctx.mainDoc := by
  rcases iawu_trace_cases w with h | h <;> rw [h]
  · rfl
  · rw [ctxAfter_append]
    rcases absFrameCheck_trace_cases w with h2 | h2 <;> rw [h2] <;> rfl

theorem clickPhase_ctx (w : World) :
    ctxAfter Ctx.mainDoc (clickPhase w).2 = Ctx.mainDoc := by
  rcases clickPhase_trace_cases w with h | h | h <;> rw [h]
  · rcases fcb_shape w.mainClickWait w.mainClickAct Ctx.mainDoc with h1 | h1 <;> rw [h1] <;> rfl
  · rw [ctxAfter_append]; rfl
  · rw [ctxAfter_append]; rfl

theorem wakeup_ctx (w : World) :
    ctxAfter Ctx.mainDoc (wakeup_app w).2 = Ctx.mainDoc := by
  unfold wakeup_app
  by_cases hu : w.appUrl = ""
  · rw [if_pos hu]
    rfl
  · rw [if_neg hu]
    rcases hnav : w.navigate with e | u
    · rfl
    · rcases hcp : (clickPhase w).1 with _ | _
      · rw [if_neg (by rw [hcp]; exact Bool.false_ne_true)]
        show ctxAfter Ctx.mainDoc
          ([Event.navigated, Event.slept 10] ++ (clickPhase w).2 ++ (is_app_woken_up w).2) =
          Ctx.mainDoc
        rw [ctxAfter_append]
        exact iawu_ctx w _
      · rw [if_pos hcp]
        show ctxAfter Ctx.mainDoc
          ([Event.navigated, Event.slept 10] ++ (clickPhase w).2 ++ [Event.slept 20] ++
            (is_app_woken_up w).2) = Ctx.mainDoc
        rw [ctxAfter_append]
        exact iawu_ctx w _

theorem iawu_no_click_events (w : World) (c : Ctx) :
    Event.clickSearch c ∉ (is_app_woken_up w).2 ∧ Event.clicked c ∉ (is_app_woken_up w).2 := by
  rcases iawu_trace_cases w with h | h <;> rw [h]
  · simp
  · rcases absFrameCheck_trace_cases w with h2 | h2 <;> rw [h2] <;> simp

theorem clickPhase_false_no_clicked (w : World) (h : (clickPhase w).1 = false) (c : Ctx) :
    Event.clicked c ∉ (clickPhase w).2 := by
  have hm2 : (find_and_click_button w.mainClickWait w.mainClickAct Ctx.mainDoc).1 = false := by
    by_contra hb
    simp only [Bool.not_eq_false] at hb
    simp [clickPhase, hb] at h
  have hmt := fcb_false_trace w.mainClickWait w.mainClickAct Ctx.mainDoc hm2
  simp only [clickPhase, hm2, hmt, Bool.false_eq_true, if_false] at h ⊢
  rcases hfi : w.findIframeClick with e | u
  · simp
  · simp only [hfi] at h
    rcases hsw : w.switchFrameClick with e2 | u2
    · simp
    · simp only [hsw] at h
      simp [fcb_false_trace _ _ _ h]

/-- Conditions under which the absence check counts the button as gone
on the iframe side: no iframe element exists on the page at all, or the
iframe exists, the switch succeeds, and the presence-wait inside it
times out. -/
def frameAbsent (w : World) : Prop :=
  w.absFindIframe = Except.error Exc.noSuch ∨
  (w.absFindIframe = Except.ok () ∧ w.absSwitchFrame = Except.ok () ∧
   w.absFrameWait = Except.error Exc.timeout)

/-- Conditions under which the button is still present in at least one
context during the absence check: found by the main-document wait, or
found by the iframe wait after a successful find and switch. -/
def buttonStillPresent (w : World) : Prop :=
  w.absMainWait = Except.ok () ∨
  (w.absMainWait = Except.error Exc.timeout ∧ w.absFindIframe = Except.ok () ∧
   w.absSwitchFrame = Except.ok () ∧ w.absFrameWait = Except.ok ())

theorem run_trace (w : World) : (run w).2 = (wakeup_app w).2 ++ [Event.sessionClosed] := rfl

theorem run_of_ok (w : World) (sm : Bool × String) (h : (wakeup_app w).1 = Except.ok sm) :
    (run w).1 = sm := by
  simp [run, h]

theorem run_of_error (w : World) (e : Exc) (h : (wakeup_app w).1 = Except.error e) :
    (run w).1 = (false, runFailPrefix ++ e.msg) := by
  simp [run, h]

theorem iawu_ok_of_timeout (w : World) (hm : w.absMainWait = Except.error Exc.timeout) :
    (is_app_woken_up w).1 = Except.ok (absFrameCheck w).1 := by
  simp [is_app_woken_up, hm]

theorem iawu_false_of_found (w : World) (hm : w.absMainWait = Except.ok ()) :
    (is_app_woken_up w).1 = Except.ok false := by
  simp [is_app_woken_up, hm]

theorem iawu_error_of_other (w : World) (e : Exc) (hm : w.absMainWait = Except.error e)
    (he : e ≠ Exc.timeout) : (is_app_woken_up w).1 = Except.error e := by
  cases e with
  | timeout => exact absurd rfl he
  | noSuch => simp [is_app_woken_up, hm]
  | other m => simp [is_app_woken_up, hm]

theorem iawu_true_of_absent (w : World) (hm : w.absMainWait = Except.error Exc.timeout)
    (hf : frameAbsent w) : (is_app_woken_up w).1 = Except.ok true := by
  rcases hf with h | ⟨h1, h2, h3⟩
  · simp [is_app_woken_up, absFrameCheck, hm, h]
  · simp [is_app_woken_up, absFrameCheck, hm, h1, h2, h3]

theorem iawu_false_of_present (w : World) (hp : buttonStillPresent w) :
    (is_app_woken_up w).1 = Except.ok false := by
  rcases hp with h | ⟨h0, h1, h2, h3⟩
  · simp [is_app_woken_up, h]
  · simp [is_app_woken_up, absFrameCheck, h0, h1, h2, h3]

theorem wakeup_noclick_result (w : World) (hu : ¬ w.appUrl = "")
    (hn : w.navigate = Except.ok ()) (hc : (clickPhase w).1 = false) :
    (wakeup_app w).1 = (match (is_app_woken_up w).1 with
      | .ok true => Except.ok (true, alreadyAwakeMsg)
      | .ok false => Except.error (Exc.other notFoundMsg)
      | .error e => Except.error e) := by
  unfold wakeup_app
  rw [if_neg hu]
  simp only [hn]
  rw [if_neg (by rw [hc]; exact Bool.false_ne_true)]

theorem wakeup_click_result (w : World) (hu : ¬ w.appUrl = "")
    (hn : w.navigate = Except.ok ()) (hc : (clickPhase w).1 = true) :
    (wakeup_app w).1 = (match (is_app_woken_up w).1 with
      | .ok true => Except.ok (true, wakeSuccessMsg)
      | .ok false => Except.error (Exc.other persistedMsg)
      | .error e => Except.error e) := by
  unfold wakeup_app
  rw [if_neg hu]
  simp only [hn]
  rw [if_pos hc]

theorem wakeup_noclick_trace (w : World) (hu : ¬ w.appUrl = "")
    (hn : w.navigate = Except.ok ()) (hc : (clickPhase w).1 = false) :
    (wakeup_app w).2 =
      [Event.navigated, Event.slept 10] ++ (clickPhase w).2 ++ (is_app_woken_up w).2 := by
  unfold wakeup_app
  rw [if_neg hu]
  simp only [hn]
  rw [if_neg (by rw [hc]; exact Bool.false_ne_true)]

theorem wakeup_click_trace (w : World) (hu : ¬ w.appUrl = "")
    (hn : w.navigate = Except.ok ()) (hc : (clickPhase w).1 = true) :
    (wakeup_app w).2 = [Event.navigated, Event.slept 10] ++ (clickPhase w).2 ++
      [Event.slept 20] ++ (is_app_woken_up w).2 := by
  unfold wakeup_app
  rw [if_neg hu]
  simp only [hn]
  rw [if_pos hc]

theorem clickPhase_main_click (w : World) (hb : w.mainClickWait = Except.ok ⟨true, true⟩)
    (hk : w.mainClickAct = Except.ok ()) :
    clickPhase w = (true, [Event.clickSearch Ctx.mainDoc, Event.clicked Ctx.mainDoc]) := by
  simp [clickPhase, find_and_click_button, hb, hk]

theorem clickPhase_head (w : World) :
    ((clickPhase w).2).head? = some (Event.clickSearch Ctx.mainDoc) := by
  rcases clickPhase_trace_cases w with h | h | h <;> rw [h] <;>
    rcases fcb_shape w.mainClickWait w.mainClickAct Ctx.mainDoc with h1 | h1 <;> simp [h1]

theorem wakeup_cases (w : World) :
    (wakeup_app w).1 = Except.ok (true, wakeSuccessMsg) ∨
    (wakeup_app w).1 = Except.ok (true, alreadyAwakeMsg) ∨
    ∃ e : Exc, (wakeup_app w).1 = Except.error e := by
  unfold wakeup_app
  by_cases hu : w.appUrl = ""
  · rw [if_pos hu]
    exact Or.inr (Or.inr ⟨_, rfl⟩)
  · rw [if_neg hu]
    rcases hn : w.navigate with e | u
    · exact Or.inr (Or.inr ⟨e, rfl⟩)
    · by_cases hc : (clickPhase w).1 = true
      · rw [if_pos hc]
        rcases hi : (is_app_woken_up w).1 with e2 | b
        · exact Or.inr (Or.inr ⟨e2, by simp [hi]⟩)
        · cases b
          · exact Or.inr (Or.inr ⟨Exc.other persistedMsg, by simp [hi]⟩)
          · exact Or.inl (by simp [hi])
      · rw [if_neg hc]
        rcases hi : (is_app_woken_up w).1 with e2 | b
        · exact Or.inr (Or.inr ⟨e2, by simp [hi]⟩)
        · cases b
          · exact Or.inr (Or.inr ⟨Exc.other notFoundMsg, by simp [hi]⟩)
          · exact Or.inr (Or.inl (by simp [hi]))

/-- C1: the caller-visible wake operation (`run`) fails only by
returning success = false together with a descriptive message (the
failure-prefixed text of the exception that ended the protocol); it is a
total function, so it has no other failure mode visible to its caller.
The only exception the wake protocol itself raises on an empty target
URL is the configuration error, which is what `run` converts. -/
theorem run_failure_modes (w : World) :
    ((run w).1.1 = true ∨ ∃ e : Exc, (run w).1 = (false, runFailPrefix ++ e.msg)) ∧
    (w.appUrl = "" → (wakeup_app w).1 = Except.error (Exc.other cfgMsg)) := by
  constructor
  · rcases wakeup_cases w with h | h | ⟨e, h⟩
    · rw [run_of_ok w _ h]
      exact Or.inl rfl
    · rw [run_of_ok w _ h]
      exact Or.inl rfl
    · exact Or.inr ⟨e, run_of_error w e h⟩
  · intro hu
    unfold wakeup_app
    rw [if_pos hu]

/-- Witness for C1 at a concrete world with an empty URL. -/
theorem run_failure_modes_witness :
    (wakeup_app wCfg).1 = Except.error (Exc.other cfgMsg) :=
  (run_failure_modes wCfg).2 (by decide)

/-- C2, counterexample: with an empty STREAMLIT_APP_URL the
configuration error is indeed raised, but the browser session has
already been opened (and the anti-detection script already executed) by
the constructor before `wakeup_app` ever checks the URL — so the error
is not raised before a session is opened. -/
theorem config_error_after_session_opened :
    (wakeup_app wCfg).1 = Except.error (Exc.other cfgMsg) ∧
    Event.sessionOpened ∈ (mainFn wCfg).2 ∧ Event.scriptExecuted ∈ (mainFn wCfg).2 := by
  decide

/-- C2 (amended): for every run with an empty STREAMLIT_APP_URL the
wake protocol raises the configuration error before performing any page
action at all — no navigation, no button search, no click, no absence
check (its event trace is empty) — though the browser session itself was
already opened by the constructor. -/
theorem config_error_before_browser_use (w : World) (hu : w.appUrl = "") :
    (wakeup_app w).1 = Except.error (Exc.other cfgMsg) ∧ (wakeup_app w).2 = [] := by
  unfold wakeup_app
  rw [if_pos hu]
  exact ⟨rfl, rfl⟩

/-- Witness for the amended C2 at a concrete world. -/
theorem config_error_before_browser_use_witness :
    (wakeup_app wCfg).1 = Except.error (Exc.other cfgMsg) ∧ (wakeup_app wCfg).2 = [] :=
  config_error_before_browser_use wCfg (by decide)

/-- C3: after the click phase, after the absence check, and after the
whole wake protocol, the frame context derived from the recorded trace
equals the main document — for every oracle, hence on every exit path,
including those where an exception occurs while searching inside the
embedded frame. -/
theorem no_frame_switch_leak (w : World) :
    ctxAfter Ctx.mainDoc (clickPhase w).2 = Ctx.mainDoc ∧
    (∀ c : Ctx, ctxAfter c (is_app_woken_up w).2 = Ctx.mainDoc) ∧
    ctxAfter Ctx.mainDoc (wakeup_app w).2 = Ctx.mainDoc :=
  ⟨clickPhase_ctx w, iawu_ctx w, wakeup_ctx w⟩

/-- C4: when no click succeeded and the button is absent from the main
document and from the embedded frame (or no frame exists), the run
returns success together with the already-awake message and its trace
contains no click in any context. -/
theorem already_awake_no_click (w : World) (hu : w.appUrl ≠ "")
    (hn : w.navigate = Except.ok ()) (hc : (clickPhase w).1 = false)
    (hm : w.absMainWait = Except.error Exc.timeout) (hf : frameAbsent w) :
    (run w).1 = (true, alreadyAwakeMsg) ∧ ∀ c : Ctx, Event.clicked c ∉ (run w).2 := by
  have hi := iawu_true_of_absent w hm hf
  have hw : (wakeup_app w).1 = Except.ok (true, alreadyAwakeMsg) := by
    rw [wakeup_noclick_result w hu hn hc, hi]
  refine ⟨run_of_ok w _ hw, ?_⟩
  intro c
  rw [run_trace, wakeup_noclick_trace w hu hn hc]
  simp
  exact ⟨clickPhase_false_no_clicked w hc c, (iawu_no_click_events w c).2⟩

/-- Witness for C4 at a concrete world where nothing is found anywhere. -/
theorem already_awake_no_click_witness :
    (run baseWorld).1 = (true, alreadyAwakeMsg) :=
  (already_awake_no_click baseWorld (by decide) (by decide) (by decide) (by decide)
    (Or.inl (by decide))).1

/-- C5: when the button is present, displayed, enabled and clickable in
the main document, the click phase clicks it there and never searches
the embedded frame (no frame click-search event occurs anywhere in the
run), and in every run the main-document click-search is the first event
of the click phase, so it always precedes any frame search. -/
theorem main_click_never_searches_frame (w : World) (hu : w.appUrl ≠ "")
    (hn : w.navigate = Except.ok ()) (hb : w.mainClickWait = Except.ok ⟨true, true⟩)
    (hk : w.mainClickAct = Except.ok ()) :
    clickPhase w = (true, [Event.clickSearch Ctx.mainDoc, Event.clicked Ctx.mainDoc]) ∧
    Event.clickSearch Ctx.frame ∉ (run w).2 ∧
    (∀ w2 : World, ((clickPhase w2).2).head? = some (Event.clickSearch Ctx.mainDoc)) := by
  have hcp := clickPhase_main_click w hb hk
  have hc : (clickPhase w).1 = true := by rw [hcp]
  refine ⟨hcp, ?_, fun w2 => clickPhase_head w2⟩
  rw [run_trace, wakeup_click_trace w hu hn hc, hcp]
  simp
  exact (iawu_no_click_events w Ctx.frame).1

/-- Witness for C5 at a concrete world with a clickable main-document
button. -/
theorem main_click_never_searches_frame_witness :
    clickPhase wMainClick =
      (true, [Event.clickSearch Ctx.mainDoc, Event.clicked Ctx.mainDoc]) :=
  (main_click_never_searches_frame wMainClick (by decide) (by decide) (by decide)
    (by decide)).1

/-- C6: after a successful click, if the post-click absence check finds
the button gone in both contexts the run returns success with the
wake-succeeded message; if the button is still present in either context
the run ends in failure with the button-persisted message. -/
theorem post_click_verification (w : World) (hu : w.appUrl ≠ "")
    (hn : w.navigate = Except.ok ()) (hc : (clickPhase w).1 = true) :
    (w.absMainWait = Except.error Exc.timeout → frameAbsent w →
      (run w).1 = (true, wakeSuccessMsg)) ∧
    (buttonStillPresent w → (run w).1 = (false, runFailPrefix ++ persistedMsg)) := by
  constructor
  · intro hm hf
    have hi := iawu_true_of_absent w hm hf
    have hwk : (wakeup_app w).1 = Except.ok (true, wakeSuccessMsg) := by
      rw [wakeup_click_result w hu hn hc, hi]
    exact run_of_ok w _ hwk
  · intro hp
    have hi := iawu_false_of_present w hp
    have hwk : (wakeup_app w).1 = Except.error (Exc.other persistedMsg) := by
      rw [wakeup_click_result w hu hn hc, hi]
    exact run_of_error w _ hwk

/-- Witness for C6 at a concrete world clicking in the main document
with the button gone afterwards. -/
theorem post_click_verification_witness :
    (run wMainClick).1 = (true, wakeSuccessMsg) :=
  (post_click_verification wMainClick (by decide) (by decide) (by decide)).1 (by decide)
    (Or.inl (by decide))

/-- C7, counterexample: a generic (non-timeout) browser error during the
main-document absence check is NOT caught at the point of use — the
check raises it instead of returning a boolean, and it surfaces as the
run's overall failure, which is neither a session-initialization failure
nor the button-not-found condition. -/
theorem absence_check_error_escapes :
    (is_app_woken_up wErrAbs).1 = Except.error (Exc.other ("network error")) ∧
    (run wErrAbs).1 = (false, runFailPrefix ++ "network error") := by
  decide

/-- C7 (amended): every browser error during a button click-search is
caught at the point of use and converted to a boolean false; in the
absence check, a main-document timeout and all iframe-side errors are
likewise converted to a boolean, but a generic (non-timeout) exception
during the main-document presence wait propagates out of the check and
surfaces as the run's overall failure message. -/
theorem interaction_errors_caught_except_main_absence (w : World) :
    (∀ (e : Exc) (cr : Except Exc Unit) (c : Ctx),
      (find_and_click_button (Except.error e) cr c).1 = false) ∧
    (∀ (el : Elem) (e : Exc) (c : Ctx),
      (find_and_click_button (Except.ok el) (Except.error e) c).1 = false) ∧
    (w.absMainWait = Except.error Exc.timeout →
      (is_app_woken_up w).1 = Except.ok (absFrameCheck w).1) ∧
    (w.absMainWait = Except.ok () → (is_app_woken_up w).1 = Except.ok false) ∧
    (∀ e : Exc, e ≠ Exc.timeout → w.absMainWait = Except.error e →
      (is_app_woken_up w).1 = Except.error e) ∧
    (∀ e : Exc, e ≠ Exc.timeout → w.appUrl ≠ "" → w.navigate = Except.ok () →
      (clickPhase w).1 = false → w.absMainWait = Except.error e →
      (run w).1 = (false, runFailPrefix ++ e.msg)) := by
  refine ⟨fun e cr c => rfl, ?_, iawu_ok_of_timeout w, iawu_false_of_found w, ?_, ?_⟩
  · intro el e c
    unfold find_and_click_button
    by_cases hb : (el.displayed && el.enabled) = true <;> simp [hb]
  · intro e he hm
    exact iawu_error_of_other w e hm he
  · intro e he hu hn hc hm
    have hi := iawu_error_of_other w e hm he
    have hwk : (wakeup_app w).1 = Except.error e := by
      rw [wakeup_noclick_result w hu hn hc, hi]
    exact run_of_error w e hwk

/-- Witness for the amended C7 at a concrete world with a generic error
in the main-document absence check. -/
theorem interaction_errors_caught_except_main_absence_witness :
    (run wErrAbs).1 = (false, runFailPrefix ++ (Exc.other ("network error")).msg) :=
  (interaction_errors_caught_except_main_absence wErrAbs).2.2.2.2.2
    (Exc.other ("network error")) (by decide) (by decide) (by decide) (by decide) (by decide)

/-- C8, counterexample: when `webdriver.Chrome` succeeds but the
constructor's `execute_script` call fails, the constructor re-raises,
`run` (with its `finally`) is never entered, and the process exits 1
with the session opened but never closed. -/
theorem session_leak_after_script_failure :
    Event.sessionOpened ∈ (mainFn wScriptFail).2 ∧
    Event.sessionClosed ∉ (mainFn wScriptFail).2 ∧ (mainFn wScriptFail).1 = 1 := by
  decide

/-- C8 (amended): on every run where the driver setup completed —
session opened AND the constructor's script executed — the session is
closed as the very last action of the process, on the success path, the
graceful-failure path and the error path alike. -/
theorem session_closed_when_init_completes (w : World) (hc : w.chromeOk = true)
    (hs : w.scriptOk = true) :
    ((mainFn w).2).getLast? = some Event.sessionClosed := by
  unfold mainFn
  rw [if_pos hc, if_pos hs]
  show (Event.sessionOpened :: Event.scriptExecuted :: (run w).2).getLast? =
    some Event.sessionClosed
  rw [run_trace]
  rw [show Event.sessionOpened :: Event.scriptExecuted ::
      ((wakeup_app w).2 ++ [Event.sessionClosed]) =
      (Event.sessionOpened :: Event.scriptExecuted :: (wakeup_app w).2) ++
        [Event.sessionClosed] from rfl]
  rw [List.getLast?_append_cons]
  simp

/-- Witness for the amended C8 at a concrete fully-initialized world. -/
theorem session_closed_when_init_completes_witness :
    ((mainFn baseWorld).2).getLast? = some Event.sessionClosed :=
  session_closed_when_init_completes baseWorld (by decide) (by decide)

/-- C9: `run` never raises — it is a total function converting every
protocol exception into a (false, prefixed message) pair — and the
process exit code is 1 exactly when driver initialization in the
constructor failed, 0 in every other case. -/
theorem run_total_and_exit_codes (w : World) :
    ((mainFn w).1 = 0 ∨ (mainFn w).1 = 1) ∧
    ((mainFn w).1 = 1 ↔ ¬(w.chromeOk = true ∧ w.scriptOk = true)) ∧
    (∀ e : Exc, (wakeup_app w).1 = Except.error e →
      (run w).1 = (false, runFailPrefix ++ e.msg)) := by
  refine ⟨?_, ?_, fun e h => run_of_error w e h⟩
  · by_cases hc : w.chromeOk = true <;> by_cases hs : w.scriptOk = true <;>
      simp [mainFn, hc, hs]
  · by_cases hc : w.chromeOk = true <;> by_cases hs : w.scriptOk = true <;>
      simp [mainFn, hc, hs]

/-- Witness for C9 at a concrete world whose protocol raises the
configuration error. -/
theorem run_total_and_exit_codes_witness :
    (run wCfg).1 = (false, runFailPrefix ++ (Exc.other cfgMsg).msg) :=
  (run_total_and_exit_codes wCfg).2.2 (Exc.other cfgMsg) (by decide)

/-- C10: when the button is absent from the main document and no iframe
element exists on the page, the frame-side check passes vacuously — no
frame absence-check event is ever performed — and the app is reported
woken based on the main document alone. -/
theorem vacuous_frame_check (w : World) (hm : w.absMainWait = Except.error Exc.timeout)
    (hf : w.absFindIframe = Except.error Exc.noSuch) :
    (is_app_woken_up w).1 = Except.ok true ∧
    Event.absenceCheck Ctx.frame ∉ (is_app_woken_up w).2 := by
  refine ⟨iawu_true_of_absent w hm (Or.inl hf), ?_⟩
  have ht : (absFrameCheck w).2 = [Event.switchedTo Ctx.mainDoc] := by
    simp [absFrameCheck, hf]
  rcases iawu_trace_cases w with h | h <;> rw [h]
  · simp
  · rw [ht]
    simp

/-- Witness for C10 at a concrete world without any iframe. -/
theorem vacuous_frame_check_witness : (is_app_woken_up baseWorld).1 = Except.ok true :=
  (vacuous_frame_check baseWorld (by decide) (by decide)).1

